import Mathlib

/-!
Shallow embedding of the "Lunas" game-engine core described by this
repository: the game loop sketched in the 2025-04-17 blog post
(class Game: constructor, loop, update, draw, getGLContext) and the
callback registry and service container from the 2025-04-18 blog post
(Game.addCallback, Game.removeCallback, class Service).  Callback dispatch
and the stop operation are described by the design document but not shown
in the repository; those parts are modelled from the spec and are marked
as such in their doc comments.
-/

namespace Game

/-- JavaScript Array.prototype.indexOf on a list: the index of the first
occurrence of the element under strict equality, or -1 when the element is
absent. -/
def jsIndexOf {α : Type} [DecidableEq α] (l : List α) (cb : α) : Int :=
  if cb ∈ l then (List.indexOf cb l : Int) else -1

/-- JavaScript Array.prototype.splice(i, 1) on a list: remove the single
element at index i. -/
def splice1 {α : Type} (l : List α) (i : Nat) : List α :=
  l.take i ++ l.drop (i + 1)

/-- Game.addCallback from the 2025-04-18 post: this.callbacks[type].push(callback),
an append at the end of the sequence for the event kind. -/
def addCallback {α : Type} (l : List α) (cb : α) : List α :=
  l ++ [cb]

/-- Game.removeCallback from the 2025-04-18 post:
const index = this.callbacks[type].indexOf(callback);
if (index !== -1) this.callbacks[type].splice(index, 1). -/
def removeCallback {α : Type} [DecidableEq α] (l : List α) (cb : α) : List α :=
  let index := jsIndexOf l cb
  if index ≠ -1 then splice1 l index.toNat else l

theorem splice1_eq_eraseIdx {α : Type} (l : List α) (i : Nat) :
    splice1 l i = l.eraseIdx i := by
  rw [splice1, List.eraseIdx_eq_take_drop_succ]

theorem removeCallback_eq_erase {α : Type} [DecidableEq α] (l : List α) (cb : α) :
    removeCallback l cb = l.erase cb := by
  by_cases h : cb ∈ l
  · have hidx : jsIndexOf l cb = (List.indexOf cb l : Int) := by
      rw [jsIndexOf, if_pos h]
    have hne : jsIndexOf l cb ≠ -1 := by
      rw [hidx]
      omega
    rw [removeCallback]
    simp only [hidx, hne, if_pos, Int.toNat_natCast, splice1_eq_eraseIdx]
    exact List.eraseIdx_indexOf_eq_erase cb l
  · have hidx : jsIndexOf l cb = -1 := by
      rw [jsIndexOf, if_neg h]
    rw [removeCallback]
    simp only [hidx, ne_eq, not_true_eq_false, if_neg, not_false_eq_true]
    exact (List.erase_of_not_mem h).symm

/-- Modelled from the spec: the repository shows addCallback and
removeCallback but not the dispatch that runs the registered callbacks.
Per spec section 4.2 and section 7, dispatch invokes every subscriber of the
snapshot in insertion order; a subscriber that fails is isolated and
reported, and dispatch continues with the next subscriber.  A subscriber is
abstracted as a value together with its behaviour run, which either
returns normally or raises an error.  The result is the ordered list of
invoked subscribers and the ordered list of reported failures. -/
def dispatchRun {α ε : Type} (run : α → Except ε Unit) : List α → List α × List (α × ε)
  | [] => ([], [])
  | cb :: rest =>
    let r := dispatchRun run rest
    match run cb with
    | Except.ok _ => (cb :: r.1, r.2)
    | Except.error e => (cb :: r.1, (cb, e) :: r.2)

theorem dispatchRun_invoked {α ε : Type} (run : α → Except ε Unit) (l : List α) :
    (dispatchRun run l).1 = l := by
  induction l with
  | nil => rfl
  | cons cb rest ih =>
    rw [dispatchRun]
    cases run cb <;> simp [ih]

/-- The field initializer of Game.lastFrameTime in the 2025-04-17 post:
private lastFrameTime = 0, set at construction before any tick runs. -/
def lastFrameTimeInit : ℚ := 0

/-- The sampling step of Game.loop in the 2025-04-17 post:
const now = performance.now();
const timePassed = now - this.lastFrameTime;
this.lastFrameTime = now;
const dt = timePassed / 1000;
The result is the pair of the dt handed to update and the new
lastFrameTime. -/
def loopStep (lastFrameTime now : ℚ) : ℚ × ℚ :=
  let timePassed := now - lastFrameTime
  let dt := timePassed / 1000
  (dt, now)

/-- The first scheduler tick as coded in the constructor of the 2025-04-17
post: requestAnimationFrame runs a callback that first sets
this.lastFrameTime = performance.now() (sample now0) and then calls
this.loop(), which samples performance.now() again (sample now1).  The
result is the pair of the first dt handed to update and the lastFrameTime
after the tick. -/
def firstTick (now0 now1 : ℚ) : ℚ × ℚ :=
  loopStep now0 now1

/-- One observable invocation during a tick: either an update subscriber
called with the delta time, or a draw subscriber called with no payload. -/
inductive CallEv (α : Type) : Type
  | update (cb : α) (dt : ℚ)
  | draw (cb : α)
  deriving DecidableEq

def CallEv.isUpdate {α : Type} : CallEv α → Bool
  | CallEv.update _ _ => true
  | CallEv.draw _ => false

def CallEv.isDraw {α : Type} : CallEv α → Bool
  | CallEv.update _ _ => false
  | CallEv.draw _ => true

/-- The input of one scheduler tick: the clock sample the loop reads, the
update and draw subscriber lists at that moment, and whether host code
calls stop during this tick.  The stop flag is modelled from the spec; the
loop in the repository has no stop operation. -/
structure TickInput (α : Type) : Type where
  now : ℚ
  updateCbs : List α
  drawCbs : List α
  stopDuringTick : Bool

/-- The invocation trace of one tick of Game.loop in the 2025-04-17 post:
this.update(dt) runs before this.draw().  The fan-out of update and draw to
the registered callbacks is modelled from the spec (section 4.2): each list
is dispatched in insertion order. -/
def tickEvents {α : Type} (lastFrameTime : ℚ) (i : TickInput α) : List (CallEv α) :=
  let dt := (loopStep lastFrameTime i.now).1
  i.updateCbs.map (fun cb => CallEv.update cb dt) ++ i.drawCbs.map CallEv.draw

/-- Modelled from the spec: the loop re-registers with the scheduler at the
end of each tick (requestAnimationFrame in the code) and stop() deregisters
it, taking effect at the tick boundary, so a tick in progress completes and
no further tick starts.  The result is the list of per-tick invocation
traces. -/
def runTicks {α : Type} (lastFrameTime : ℚ) : List (TickInput α) → List (List (CallEv α))
  | [] => []
  | i :: rest =>
    tickEvents lastFrameTime i ::
      (if i.stopDuringTick then [] else runTicks i.now rest)

/-- The host environment the constructor of the 2025-04-17 post observes:
whether document.getElementById returns the lunasCanvas element, and which
WebGL context kinds canvas.getContext can produce. -/
structure Env : Type where
  canvasExists : Bool
  webgl2Supported : Bool
  webglSupported : Bool

/-- The errors the constructor of the 2025-04-17 post can throw.
surfaceNotFound is the error Canvas element with id lunasCanvas not found;
webglContextFailed is the error Unable to initialize WebGL context. -/
inductive StartError : Type
  | surfaceNotFound
  | webglContextFailed
  deriving DecidableEq

/-- The kind of rendering context getGLContext returns. -/
inductive GLKind : Type
  | webgl2
  | webgl
  deriving DecidableEq

/-- The lifecycle states of the loop per the spec state machine: Created
before any scheduler registration, Running once the tick callback is
registered, Stopped after deregistration. -/
inductive LoopState : Type
  | created
  | running
  | stopped
  deriving DecidableEq

/-- Game.getGLContext from the 2025-04-17 post: try webgl2 first, fall back
to webgl, and throw when neither is available. -/
def getGLContext (env : Env) : Except StartError GLKind :=
  if env.webgl2Supported then Except.ok GLKind.webgl2
  else if env.webglSupported then Except.ok GLKind.webgl
  else Except.error StartError.webglContextFailed

/-- The observable outcome of running the constructor of the 2025-04-17
post: the thrown error or acquired context, the lifecycle state afterwards
(running exactly when requestAnimationFrame was reached and the tick
callback registered), and the lastFrameTime field. -/
structure CtorResult : Type where
  result : Except StartError GLKind
  state : LoopState
  lastFrameTime : ℚ

/-- The Game constructor from the 2025-04-17 post: look up the lunasCanvas
element and throw surfaceNotFound when it is absent, before anything else
is touched; then acquire a GL context (which may itself throw); only then
register the loop with requestAnimationFrame.  lastFrameTime keeps its
field-initializer value 0 until the first tick runs. -/
def gameConstructor (env : Env) : CtorResult :=
  if env.canvasExists = false then
    { result := Except.error StartError.surfaceNotFound
      state := LoopState.created
      lastFrameTime := lastFrameTimeInit }
  else
    match getGLContext env with
    | Except.error e =>
        { result := Except.error e
          state := LoopState.created
          lastFrameTime := lastFrameTimeInit }
    | Except.ok gl =>
        { result := Except.ok gl
          state := LoopState.running
          lastFrameTime := lastFrameTimeInit }

end Game

namespace Service

/-- A JavaScript value as far as the service container is concerned:
enough structure to decide JavaScript truthiness.  Object references are
abstracted as numeric identities. -/
inductive JSValue : Type
  | undefined
  | null
  | bool (b : Bool)
  | num (q : ℚ)
  | str (s : String)
  | obj (id : Nat)
  deriving DecidableEq

/-- JavaScript truthiness: undefined, null, false, 0 and the empty string
are falsy; every other value here is truthy. -/
def truthy : JSValue → Bool
  | JSValue.undefined => false
  | JSValue.null => false
  | JSValue.bool b => b
  | JSValue.num q => decide (q ≠ 0)
  | JSValue.str s => decide (s ≠ "")
  | JSValue.obj _ => true

/-- The static CONTAINER of the Service class from the 2025-04-18 post, a
Record keyed by service name.  Later entries shadow earlier ones, as
assignment overwrites. -/
def Container : Type := List (String × JSValue)

/-- Property read CONTAINER[name]: the stored value, or undefined when the
key is absent. -/
def containerRead (c : Container) (name : String) : JSValue :=
  match List.lookup name c with
  | some v => v
  | none => JSValue.undefined

/-- Service.add from the 2025-04-18 post: CONTAINER[name] = service,
overwriting any previous entry under that name. -/
def add (c : Container) (name : String) (service : JSValue) : Container :=
  (name, service) :: c

/-- Service.get from the 2025-04-18 post:
const service = Service.CONTAINER[name];
if (!service) throw new Error(...);
return service.  The thrown error is returned as Except.error with the
message text. -/
def get (c : Container) (name : String) : Except String JSValue :=
  let service := containerRead c name
  if truthy service = false then
    Except.error ("Error: Service \"" ++ name ++ "\" does not exist.")
  else
    Except.ok service

end Service

namespace Game

theorem tickEvents_length {α : Type} (last : ℚ) (i : TickInput α) :
    (tickEvents last i).length = i.updateCbs.length + i.drawCbs.length := by
  simp [tickEvents]

theorem tickEvents_get_lt {α : Type} (last : ℚ) (i : TickInput α) (k : ℕ)
    (hk : k < (tickEvents last i).length) (hlt : k < i.updateCbs.length) :
    (tickEvents last i).get ⟨k, hk⟩ =
      CallEv.update (i.updateCbs.get ⟨k, hlt⟩) ((loopStep last i.now).1) := by
  simp only [List.get_eq_getElem, tickEvents]
  rw [List.getElem_append_left (by simpa using hlt)]
  simp

theorem tickEvents_get_ge {α : Type} (last : ℚ) (i : TickInput α) (k : ℕ)
    (hk : k < (tickEvents last i).length) (hge : i.updateCbs.length ≤ k) :
    ∃ hd, (tickEvents last i).get ⟨k, hk⟩ =
      CallEv.draw (i.drawCbs.get ⟨k - i.updateCbs.length, hd⟩) := by
  have hd : k - i.updateCbs.length < i.drawCbs.length := by
    have := tickEvents_length last i ▸ hk
    omega
  refine ⟨hd, ?_⟩
  simp only [List.get_eq_getElem, tickEvents]
  rw [List.getElem_append_right (by simpa using hge)]
  simp

theorem mem_runTicks_shape {α : Type} (t0 : ℚ) (inputs : List (TickInput α))
    (tr : List (CallEv α)) (h : tr ∈ runTicks t0 inputs) :
    ∃ last i, tr = tickEvents last i := by
  induction inputs generalizing t0 with
  | nil => cases h
  | cons i rest ih =>
    rw [runTicks] at h
    rcases List.mem_cons.mp h with h1 | h2
    · exact ⟨t0, i, h1⟩
    · by_cases hs : i.stopDuringTick
      · rw [if_pos hs] at h2
        cases h2
      · rw [if_neg hs] at h2
        exact ih i.now h2

theorem dispatchRun_failure_mem {α ε : Type} (run : α → Except ε Unit)
    (l₁ l₂ : List α) (bad : α) (e : ε) (h : run bad = Except.error e) :
    (bad, e) ∈ (dispatchRun run (l₁ ++ bad :: l₂)).2 := by
  induction l₁ with
  | nil =>
    rw [List.nil_append, dispatchRun, h]
    exact List.mem_cons_self _ _
  | cons a l₁ ih =>
    rw [List.cons_append, dispatchRun]
    cases run a with
    | ok _ => exact ih
    | error ea => exact List.mem_cons_of_mem _ ih

end Game

/-- C1: the claim states that the delta produced by the sampling in the loop is
clamped to 0 under clock regression, so that a negative delta never
reaches update subscribers.  Counterexample: Game.loop computes
dt = (now - lastFrameTime) / 1000 with no clamp, so with lastFrameTime = 10
and a regressed sample now = 5 the dt is negative and that very value is
the payload of the update invocation of the tick. -/
theorem c1_dt_clamped_cex :
    (Game.loopStep 10 5).1 < 0 ∧
    Game.CallEv.update 0 ((Game.loopStep 10 5).1) ∈
      Game.tickEvents 10 (Game.TickInput.mk 5 [0] [] false) := by
  constructor
  · norm_num [Game.loopStep]
  · simp [Game.tickEvents]

/-- C1 (amended): Game.loop does not clamp: it passes
dt = (now - lastFrameTime) / 1000 to update subscribers as computed, and
dt >= 0 holds exactly when the new sample does not precede the last
recorded one; under clock regression the delta reaching update subscribers
is negative. -/
theorem c1_dt_unclamped (lastFrameTime now : ℚ) (cbs : List ℕ) (cb : ℕ)
    (hcb : cb ∈ cbs) :
    (0 ≤ (Game.loopStep lastFrameTime now).1 ↔ lastFrameTime ≤ now) ∧
    Game.CallEv.update cb ((Game.loopStep lastFrameTime now).1) ∈
      Game.tickEvents lastFrameTime (Game.TickInput.mk now cbs [] false) := by
  constructor
  · show (0 ≤ (now - lastFrameTime) / 1000 ↔ _)
    rw [div_nonneg_iff]
    constructor
    · rintro (⟨h1, _⟩ | ⟨_, h2⟩)
      · linarith
      · linarith
    · intro h
      exact Or.inl ⟨by linarith, by norm_num⟩
  · simp only [Game.tickEvents, List.map_nil, List.append_nil]
    exact List.mem_map_of_mem _ hcb

/-- C1 amended witness at lastFrameTime = 0, now = 1 with the single
update subscriber 0. -/
theorem c1_dt_unclamped_witness :
    (0 ≤ (Game.loopStep 0 1).1 ↔ (0:ℚ) ≤ 1) ∧
    Game.CallEv.update 0 ((Game.loopStep 0 1).1) ∈
      Game.tickEvents 0 (Game.TickInput.mk 1 [0] [] false) :=
  c1_dt_unclamped 0 1 [0] 0 (by simp)

/-- C8: the claim states that because lastFrameTime is initialized on the
first scheduler tick, the delta passed to update on the first tick is
always zero.  Counterexample: the requestAnimationFrame
callback sets lastFrameTime with one performance.now() sample and loop then
takes a second sample, so with monotone samples 0 and then 5 the first
delta is 5 / 1000, not zero. -/
theorem c8_first_dt_zero_cex :
    (0:ℚ) ≤ 5 ∧ (Game.firstTick 0 5).1 ≠ 0 := by
  constructor
  · norm_num
  · norm_num [Game.firstTick, Game.loopStep]

/-- C8 (amended): lastFrameTime is 0 at construction and is set to the
current sample on the first scheduler tick, not at construction; the first
delta equals the clock advance between the initialization sample of the
callback and the separate sample taken by loop divided by 1000, hence it is >= 0 for
monotone samples and zero exactly when the clock does not advance between
those two calls, rather than unconditionally zero. -/
theorem c8_first_tick_dt (now0 now1 : ℚ) (h : now0 ≤ now1) :
    Game.lastFrameTimeInit = 0 ∧
    (Game.firstTick now0 now1).2 = now1 ∧
    (Game.firstTick now0 now1).1 = (now1 - now0) / 1000 ∧
    0 ≤ (Game.firstTick now0 now1).1 ∧
    ((Game.firstTick now0 now1).1 = 0 ↔ now1 = now0) := by
  refine ⟨rfl, rfl, rfl, ?_, ?_⟩
  · show (0:ℚ) ≤ (now1 - now0) / 1000
    have h1 : (0:ℚ) ≤ now1 - now0 := by linarith
    positivity
  · show (now1 - now0) / 1000 = 0 ↔ now1 = now0
    rw [div_eq_zero_iff]
    constructor
    · rintro (h1 | h1)
      · linarith
      · norm_num at h1
    · intro h1
      exact Or.inl (by linarith)

/-- C8 amended witness at samples 2 and then 7 on the first tick. -/
theorem c8_first_tick_dt_witness :
    Game.lastFrameTimeInit = 0 ∧
    (Game.firstTick 2 7).2 = 7 ∧
    (Game.firstTick 2 7).1 = (7 - 2) / 1000 ∧
    0 ≤ (Game.firstTick 2 7).1 ∧
    ((Game.firstTick 2 7).1 = 0 ↔ (7:ℚ) = 2) :=
  c8_first_tick_dt 2 7 (by norm_num)

/-- C2: the claim states that for every prior subscriber list, including
lists already containing cb, remove(kind, cb) after add(kind, cb) leaves
cb uninvoked on the next dispatch.  Counterexample: starting from the list
that already holds 7, adding 7 and then removing 7 removes only the first
occurrence, so 7 is still invoked by the next dispatch. -/
theorem c2_remove_after_add_cex :
    (7:ℕ) ∈ (Game.dispatchRun (fun _ => (Except.ok () : Except Unit Unit))
      (Game.removeCallback (Game.addCallback [7] 7) 7)).1 := by
  rw [Game.dispatchRun_invoked, Game.removeCallback_eq_erase]
  decide

/-- C2 (amended): remove(kind, cb) after add(kind, cb) erases the first
occurrence of cb, so when cb was not already present before the add the
registry returns to its prior state and cb is not invoked on the next
dispatch; when cb was already present, one occurrence survives. -/
theorem c2_remove_after_add {α ε : Type} [DecidableEq α]
    (run : α → Except ε Unit) (l : List α) (cb : α) :
    Game.removeCallback (Game.addCallback l cb) cb =
      (if cb ∈ l then l.erase cb ++ [cb] else l) ∧
    (cb ∉ l →
      cb ∉ (Game.dispatchRun run (Game.removeCallback (Game.addCallback l cb) cb)).1) := by
  have hmain : Game.removeCallback (Game.addCallback l cb) cb =
      (if cb ∈ l then l.erase cb ++ [cb] else l) := by
    rw [Game.removeCallback_eq_erase, Game.addCallback]
    by_cases h : cb ∈ l
    · rw [if_pos h, List.erase_append_left _ h]
    · rw [if_neg h, List.erase_append_right _ h]
      simp
  refine ⟨hmain, fun h => ?_⟩
  rw [Game.dispatchRun_invoked, hmain, if_neg h]
  exact h

/-- C2 amended witness: adding then removing 3 on the list of 1 and 2
leaves the registry unchanged and 3 uninvoked by the next dispatch. -/
theorem c2_remove_after_add_witness :
    (3:ℕ) ∉ (Game.dispatchRun (fun _ => (Except.ok () : Except Unit Unit))
      (Game.removeCallback (Game.addCallback [1, 2] 3) 3)).1 :=
  (c2_remove_after_add (fun _ => (Except.ok () : Except Unit Unit)) [1, 2] 3).2 (by decide)

/-- C7: removeCallback removes exactly the first occurrence of the
callback under identity equality, removes at most one occurrence per call,
and is a no-op leaving the registry unchanged when the callback is absent
from the sequence for the kind. -/
theorem c7_remove_first_occurrence {α : Type} [DecidableEq α] (l : List α) (cb : α) :
    (cb ∉ l → Game.removeCallback l cb = l) ∧
    (∀ l₁ l₂, cb ∉ l₁ → l = l₁ ++ cb :: l₂ → Game.removeCallback l cb = l₁ ++ l₂) ∧
    (cb ∈ l → (Game.removeCallback l cb).count cb + 1 = l.count cb) := by
  refine ⟨fun h => ?_, fun l₁ l₂ h1 h2 => ?_, fun h => ?_⟩
  · rw [Game.removeCallback_eq_erase]
    exact List.erase_of_not_mem h
  · subst h2
    rw [Game.removeCallback_eq_erase, List.erase_append_right _ h1,
      List.erase_cons_head]
  · rw [Game.removeCallback_eq_erase, List.count_erase_self]
    have hpos : 0 < l.count cb := List.count_pos_iff.mpr h
    omega

/-- C7 witness: removing 5 from the list 5, 9, 5 removes exactly the first
occurrence. -/
theorem c7_remove_first_occurrence_witness :
    Game.removeCallback ([5, 9, 5] : List ℕ) 5 = [] ++ [9, 5] :=
  (c7_remove_first_occurrence [5, 9, 5] 5).2.1 [] [9, 5] (by decide) rfl

/-- C9: addCallback has no uniqueness constraint: adding the same callback
twice appends two occurrences, and the next dispatch invokes it exactly
twice, in the order the occurrences were added. -/
theorem c9_add_twice {α ε : Type} [DecidableEq α]
    (run : α → Except ε Unit) (l : List α) (cb : α) (h : cb ∉ l) :
    Game.addCallback (Game.addCallback l cb) cb = l ++ [cb, cb] ∧
    (Game.dispatchRun run (Game.addCallback (Game.addCallback l cb) cb)).1 =
      l ++ [cb, cb] ∧
    (Game.dispatchRun run (Game.addCallback (Game.addCallback l cb) cb)).1.count cb = 2 := by
  have happ : Game.addCallback (Game.addCallback l cb) cb = l ++ [cb, cb] := by
    rw [Game.addCallback, Game.addCallback, List.append_assoc]
    rfl
  refine ⟨happ, ?_, ?_⟩
  · rw [Game.dispatchRun_invoked, happ]
  · rw [Game.dispatchRun_invoked, happ, List.count_append,
      List.count_eq_zero_of_not_mem h]
    simp

/-- C9 witness: adding 7 twice to the list holding 4 yields two trailing
occurrences and the next dispatch invokes 7 exactly twice. -/
theorem c9_add_twice_witness :
    Game.addCallback (Game.addCallback [4] 7) 7 = [4] ++ [7, 7] ∧
    (Game.dispatchRun (fun _ => (Except.ok () : Except Unit Unit))
      (Game.addCallback (Game.addCallback [4] 7) 7)).1 = [4] ++ [7, 7] ∧
    (Game.dispatchRun (fun _ => (Except.ok () : Except Unit Unit))
      (Game.addCallback (Game.addCallback [4] 7) 7)).1.count 7 = 2 :=
  c9_add_twice (fun _ => (Except.ok () : Except Unit Unit)) [4] 7 (by decide)

/-- C3: in every trace of the running loop, for every tick, every update
invocation precedes every draw invocation: Game.loop calls this.update(dt)
before this.draw(), and each dispatch runs its subscriber list to
completion in insertion order. -/
theorem c3_update_before_draw {α : Type} (t0 : ℚ) (inputs : List (Game.TickInput α))
    (tr : List (Game.CallEv α)) (htr : tr ∈ Game.runTicks t0 inputs)
    (kU kD : ℕ) (hkU : kU < tr.length) (hkD : kD < tr.length)
    (hu : (tr.get ⟨kU, hkU⟩).isUpdate = true)
    (hd : (tr.get ⟨kD, hkD⟩).isDraw = true) :
    kU < kD := by
  obtain ⟨last, i, rfl⟩ := Game.mem_runTicks_shape t0 inputs tr htr
  have hUlt : kU < i.updateCbs.length := by
    by_contra hge
    push_neg at hge
    obtain ⟨hdlt, heq⟩ := Game.tickEvents_get_ge last i kU hkU hge
    rw [heq] at hu
    simp [Game.CallEv.isUpdate] at hu
  have hDge : i.updateCbs.length ≤ kD := by
    by_contra hlt
    push_neg at hlt
    have heq := Game.tickEvents_get_lt last i kD hkD hlt
    rw [heq] at hd
    simp [Game.CallEv.isDraw] at hd
  omega

/-- C3 witness: a one-tick run with one update and one draw subscriber,
where the update invocation sits at index 0 and the draw invocation at
index 1. -/
theorem c3_update_before_draw_witness : (0:ℕ) < 1 :=
  c3_update_before_draw 0 [Game.TickInput.mk 1 [10] [20] false]
    (Game.tickEvents 0 (Game.TickInput.mk 1 [10] [20] false))
    (by simp [Game.runTicks])
    0 1
    (by norm_num [Game.tickEvents])
    (by norm_num [Game.tickEvents])
    rfl rfl

/-- C4: when stop is requested during tick n after a prefix of ticks that
do not stop, tick n still runs its complete update and draw dispatch and
the run ends there: none of the ticks that would follow occurs. -/
theorem c4_stop_no_next_tick {α : Type} (t0 : ℚ) (pre post : List (Game.TickInput α))
    (i : Game.TickInput α)
    (h1 : ∀ j ∈ pre, j.stopDuringTick = false)
    (h2 : i.stopDuringTick = true) :
    Game.runTicks t0 (pre ++ i :: post) =
      Game.runTicks t0 pre ++
        [Game.tickEvents (pre.foldl (fun _ j => j.now) t0) i] := by
  revert h1
  induction pre generalizing t0 with
  | nil =>
    intro h1
    simp [Game.runTicks, h2]
  | cons j rest ih =>
    intro h1
    have hj : j.stopDuringTick = false := h1 j (List.mem_cons_self j rest)
    have hrest : ∀ k ∈ rest, k.stopDuringTick = false :=
      fun k hk => h1 k (List.mem_cons_of_mem _ hk)
    rw [List.cons_append]
    simp only [Game.runTicks]
    rw [if_neg (by simp [hj]), if_neg (by simp [hj]), ih j.now hrest]
    simp

/-- C4 witness: a two-tick schedule where stop is requested during the
first tick; the full trace of the first tick is produced and the second tick
never runs. -/
theorem c4_stop_no_next_tick_witness :
    Game.runTicks 0
        ([] ++ Game.TickInput.mk 1 [5] [6] true :: [Game.TickInput.mk 2 [5] [6] false]) =
      Game.runTicks 0 ([] : List (Game.TickInput ℕ)) ++
        [Game.tickEvents (List.foldl (fun _ j => j.now) 0 ([] : List (Game.TickInput ℕ)))
          (Game.TickInput.mk 1 [5] [6] true)] :=
  c4_stop_no_next_tick 0 [] [Game.TickInput.mk 2 [5] [6] false]
    (Game.TickInput.mk 1 [5] [6] true) (by simp) rfl

/-- C5: when the lunasCanvas element is absent the constructor throws
surfaceNotFound synchronously, before acquiring a context or registering
with the scheduler, so the loop stays in the created state with
lastFrameTime untouched; construction against an environment with a valid
surface succeeds and reaches the running state. -/
theorem c5_surface_not_found (env : Game.Env) (h : env.canvasExists = false) :
    (Game.gameConstructor env).result = Except.error Game.StartError.surfaceNotFound ∧
    (Game.gameConstructor env).state = Game.LoopState.created ∧
    (Game.gameConstructor env).lastFrameTime = Game.lastFrameTimeInit ∧
    (∀ env2 : Game.Env, env2.canvasExists = true → env2.webgl2Supported = true →
      (Game.gameConstructor env2).result = Except.ok Game.GLKind.webgl2 ∧
      (Game.gameConstructor env2).state = Game.LoopState.running) := by
  have hmain : Game.gameConstructor env =
      { result := Except.error Game.StartError.surfaceNotFound
        state := Game.LoopState.created
        lastFrameTime := Game.lastFrameTimeInit } := by
    rw [Game.gameConstructor, if_pos h]
  refine ⟨by rw [hmain], by rw [hmain], by rw [hmain], fun env2 h2 h3 => ?_⟩
  constructor <;> simp [Game.gameConstructor, Game.getGLContext, h2, h3]

/-- C5 witness: construction with no canvas throws surfaceNotFound and a
later construction with a canvas and WebGL2 succeeds. -/
theorem c5_surface_not_found_witness :
    (Game.gameConstructor (Game.Env.mk false true true)).result =
      Except.error Game.StartError.surfaceNotFound ∧
    (Game.gameConstructor (Game.Env.mk true true false)).result =
      Except.ok Game.GLKind.webgl2 :=
  ⟨(c5_surface_not_found (Game.Env.mk false true true) rfl).1,
   ((c5_surface_not_found (Game.Env.mk false true true) rfl).2.2.2
     (Game.Env.mk true true false) rfl rfl).1⟩

/-- C6: a subscriber that raises during dispatch is isolated: dispatch
still invokes every subscriber of the pass, in particular every sibling
later in the list, returns normally instead of halting the loop, and the
failure is reported on the diagnostics list. -/
theorem c6_subscriber_failure_isolated {α ε : Type} (run : α → Except ε Unit)
    (l₁ l₂ : List α) (bad : α) (e : ε) (h : run bad = Except.error e) :
    (Game.dispatchRun run (l₁ ++ bad :: l₂)).1 = l₁ ++ bad :: l₂ ∧
    (bad, e) ∈ (Game.dispatchRun run (l₁ ++ bad :: l₂)).2 :=
  ⟨Game.dispatchRun_invoked run _, Game.dispatchRun_failure_mem run l₁ l₂ bad e h⟩

/-- C6 witness: subscriber 1 fails between subscribers 0 and 2; all three
are invoked and the failure of 1 is reported. -/
theorem c6_subscriber_failure_isolated_witness :
    (Game.dispatchRun
        (fun n => if n = 1 then (Except.error () : Except Unit Unit) else Except.ok ())
        ([0] ++ 1 :: [2])).1 = [0] ++ 1 :: [2] ∧
    ((1 : ℕ), ()) ∈
      (Game.dispatchRun
        (fun n => if n = 1 then (Except.error () : Except Unit Unit) else Except.ok ())
        ([0] ++ 1 :: [2])).2 :=
  c6_subscriber_failure_isolated
    (fun n => if n = 1 then (Except.error () : Except Unit Unit) else Except.ok ())
    [0] [2] 1 () rfl

/-- C10: Service.get throws the does-not-exist error exactly when the
value read from the container under the name is falsy; in particular after
Service.add of a falsy value such as the number 0, Service.get throws even
though an entry for the name exists. -/
theorem c10_get_throws_iff_falsy (c : Service.Container) (name : String) :
    ((∃ msg, Service.get c name = Except.error msg) ↔
      Service.truthy (Service.containerRead c name) = false) ∧
    (∀ v : Service.JSValue, Service.truthy v = false →
      (∃ msg, Service.get (Service.add c name v) name = Except.error msg) ∧
      List.lookup name (Service.add c name v) = some v) := by
  have hiff : ∀ c2 : Service.Container,
      (∃ msg, Service.get c2 name = Except.error msg) ↔
      Service.truthy (Service.containerRead c2 name) = false := by
    intro c2
    rw [Service.get]
    by_cases htr : Service.truthy (Service.containerRead c2 name) = false
    · simp [htr]
    · simp [htr]
  refine ⟨hiff c, fun v hv => ?_⟩
  have hread : Service.containerRead (Service.add c name v) name = v := by
    rw [Service.add, Service.containerRead, List.lookup_cons_self]
  refine ⟨(hiff _).mpr (by rw [hread]; exact hv), ?_⟩
  rw [Service.add]
  exact List.lookup_cons_self

/-- C10 witness: after adding the falsy number 0 under the name audio,
Service.get throws although the entry is present. -/
theorem c10_get_throws_iff_falsy_witness :
    (∃ msg, Service.get (Service.add [] "audio" (Service.JSValue.num 0)) "audio" =
      Except.error msg) ∧
    List.lookup ("audio") (Service.add [] "audio" (Service.JSValue.num 0)) =
      some (Service.JSValue.num 0) :=
  (c10_get_throws_iff_falsy [] "audio").2 (Service.JSValue.num 0) (by decide)
